import Mathlib

/-!
Shallow embedding of the `ibis` repository: the `init` supervisor
(src/init/src/main.rs, with the same shutdown logic as src/init/src/shutdown.rs
and the halt of src/init/src/debug.rs) and the `ibish` shell
(src/ibish/src/main.rs).

Both programs are modelled as explicit-state transition functions driven by an
oracle environment that fixes the outcome of every system call (process id,
spawn success, wait results, kill/reboot outcomes, input lines).  Each
transition emits a list of observable events (console output, environment
writes, process spawns, waits, the kill/sync/reboot system calls, and a panic
marker for Rust `unwrap` failures, which abort the process).  A run is the
fuel-indexed iteration of the step function from the start state, accumulating
the event trace.

Platform semantics made explicit in the model:
 * `nix::sys::reboot::reboot(RB_POWER_OFF)` returns `Result<Infallible>`: on
   success the kernel powers off and the call never returns, so the model
   transitions to the terminal `poweredOff` state; on failure the call returns
   an error and the code calls `unrecoverable_error`, which prints and then
   runs `loop {}` forever (terminal `halted` state, no further events).
 * A failed Rust `unwrap()` panics; the process prints a panic message and
   terminates abnormally (terminal `panicked` state).  This is neither the
   `unrecoverable_error` halt nor a clean `exit`.
 * The banner logo and the crate version are compile-time/collaborator inputs
   (the spec treats the Banner Source as an external collaborator), so they
   are fields of the environment rather than constants of the model.
-/

namespace Ibis

/-- Observable events emitted by the supervisor and the shell. -/
inductive Ev where
  | out (s : String)
  | setEnvVar (name value : String)
  | spawnProc (path : String) (args : List String)
  | waitChild (status : Nat)
  | killAll
  | syncFs
  | rebootReq
  | panicOut
deriving DecidableEq

/-- Rust `char::is_ascii_whitespace`: space, horizontal tab, line feed,
form feed (U+000C) and carriage return. -/
def isAsciiWhitespace (c : Char) : Bool :=
  c == ' ' || c == '\t' || c == '\n' || c == Char.ofNat 12 || c == '\r'

/-- Accumulator-based splitter behind `parse_line`: splits a character list on
runs of ASCII whitespace, mirroring `str::split_ascii_whitespace`.  `acc`
holds the current word reversed. -/
def split_ascii_whitespace_aux : List Char → List Char → List (List Char)
  | [], acc => if acc = [] then [] else [acc.reverse]
  | c :: cs, acc =>
    if isAsciiWhitespace c then
      if acc = [] then split_ascii_whitespace_aux cs []
      else acc.reverse :: split_ascii_whitespace_aux cs []
    else split_ascii_whitespace_aux cs (c :: acc)

/-- ibish `parse_line`: `line_buf.split_ascii_whitespace().collect()`.
No quoting, escaping or substitution: purely a whitespace split. -/
def parse_line (line_buf : String) : List String :=
  (split_ascii_whitespace_aux line_buf.data []).map fun w => String.mk w

/-- The ibish prompt string. -/
def PROMPT : String := "> "

/-- What the shell decides to do with one tokenized line. -/
inductive DispatchAction where
  | noop
  | exitWithCode (code : Nat)
  | runCmd (cmd : String) (args : List String)
deriving DecidableEq

/-- The `match parsed_line.as_slice()` in ibish `main`.  The source matches
the slice patterns in the order `["exit", ..]`, `&[]`, `_`; since the first
pattern only matches non-empty slices this is the same function as matching
the empty slice first and testing the head against `"exit"` otherwise. -/
def dispatch : List String → DispatchAction
  | [] => .noop
  | cmd :: rest => if cmd = "exit" then .exitWithCode 0 else .runCmd cmd rest

/-- Oracle environment for one run of the shell: the input line delivered by
`read_line` at iteration `n` (`none` models end-of-input, where `read_line`
returns `Ok(0)` and appends nothing to the cleared buffer), whether spawning a
given command name succeeds, and the exit status the child spawned at
iteration `n` terminates with. -/
structure ShellEnv where
  input : Nat → Option String
  resolves : String → Bool
  childStatus : Nat → Nat

/-- The line the `read_line` call at iteration `n` leaves in the buffer
(empty at end-of-input). -/
def readLine (env : ShellEnv) (n : Nat) : String :=
  (env.input n).getD ""

/-- Shell states: `prompt n` is the top of the ibish loop at iteration `n`
(about to print the prompt and read line `n`); `shExited c` is
`std::process::exit(c)`; `shPanicked` is the abnormal termination of a failed
`unwrap` (the `spawn().unwrap()` on an unresolvable command). -/
inductive ShellState where
  | prompt (n : Nat)
  | shExited (code : Nat)
  | shPanicked
deriving DecidableEq

/-- One iteration of the ibish `main` loop: print the prompt, read a line,
parse it and dispatch.  On a spawned command the shell blocks in
`child_process.wait()` and returns to the prompt whatever status the child
exits with; on an unresolvable command the `spawn().unwrap()` panics. -/
def shellStep (env : ShellEnv) : ShellState → ShellState × List Ev
  | .prompt n =>
    match dispatch (parse_line (readLine env n)) with
    | .noop => (.prompt (n + 1), [.out PROMPT])
    | .exitWithCode c => (.shExited c, [.out PROMPT])
    | .runCmd cmd args =>
      if env.resolves cmd then
        (.prompt (n + 1),
          [.out PROMPT, .spawnProc cmd args, .waitChild (env.childStatus n)])
      else
        (.shPanicked, [.out PROMPT, .panicOut])
  | .shExited c => (.shExited c, [])
  | .shPanicked => (.shPanicked, [])

/-- `k` steps of the shell from the start of `main`, with the event trace. -/
def shellRun (env : ShellEnv) : Nat → ShellState × List Ev
  | 0 => (.prompt 0, [])
  | k + 1 =>
    let p := shellRun env k
    let q := shellStep env p.1
    (q.1, p.2 ++ q.2)

theorem shellRun_succ (env : ShellEnv) (k : Nat) :
    shellRun env (k + 1) =
      ((shellStep env (shellRun env k).1).1,
        (shellRun env k).2 ++ (shellStep env (shellRun env k).1).2) := rfl

/-- The default PATH value init installs (src/init defaults). -/
def DEFAULT_PATH : String := "/sbin;/bin"

/-- The message `unrecoverable_error` prints before its `loop {}`. -/
def unrecoverable_error_msg (msg : String) : String :=
  "init has encountered a serious error:\n\t" ++ msg ++
    "\n\nPlease report a bug and reboot your system."

/-- Oracle environment for one run of init: the process id it was started
under, the Banner Source text and crate version, whether disabling
Ctrl-Alt-Delete and installing the signal mask succeed, and per loop
iteration `n`: whether spawning `/ibish` succeeds, the result of waiting on
it (`none` models a `wait` error, whose `unwrap` panics), whether the SIGTERM
broadcast succeeds, and whether the `reboot(RB_POWER_OFF)` call succeeds
(success powers the machine off and never returns). -/
structure InitEnv where
  pid : Nat
  bannerLogo : String
  version : String
  cadOk : Bool
  maskOk : Bool
  spawnShellOk : Nat → Bool
  waitRes : Nat → Option Nat
  killOk : Nat → Bool
  rebootOk : Nat → Bool

/-- Supervisor states, following init `main` top to bottom: the PID check,
the Ctrl-Alt-Delete disable, the signal mask, the banner print, the PATH
write, then the loop (`loopTop n` is the top of iteration `n`, `shellWait n`
is the block in `child.wait()`, `shutdownAt n` is the entry into
`on_shutdown_request`).  Terminal states: `exited c` is `process::exit(c)`,
`halted` is the `loop {}` of `unrecoverable_error` (message already printed),
`poweredOff` is a successful `reboot(RB_POWER_OFF)` (which never returns),
`panicked` is a failed `unwrap`. -/
inductive InitState where
  | start
  | pidOk
  | cadDone
  | maskDone
  | bannerDone
  | pathSet
  | loopTop (n : Nat)
  | shellWait (n : Nat)
  | shutdownAt (n : Nat)
  | exited (code : Nat)
  | halted
  | poweredOff
  | panicked
deriving DecidableEq

/-- The events `on_shutdown_request` emits: announce and broadcast SIGTERM to
pid -1 (logging, not aborting, on failure), `sync`, then the
`reboot(RB_POWER_OFF)` request; if that call fails, `unrecoverable_error`
prints its message (and then loops forever). -/
def on_shutdown_request_events (killOk rebootOk : Bool) : List Ev :=
  [.out "Terminating all processes", .killAll] ++
    (if killOk then []
     else [.out "Failure trying to kill processes during shutdown"]) ++
    ([.syncFs, .rebootReq] ++
      (if rebootOk then []
       else [.out (unrecoverable_error_msg "Could not initiate shutdown")]))

/-- One step of init `main`.  Every failed `unwrap` goes to `panicked`;
every `unrecoverable_error` call prints its message and goes to `halted`;
terminal states step to themselves emitting nothing. -/
def initStep (env : InitEnv) : InitState → InitState × List Ev
  | .start =>
    if env.pid = 1 then (.pidOk, [])
    else (.exited 1, [.out "This process must be run as PID 1 (init)"])
  | .pidOk =>
    if env.cadOk then (.cadDone, [])
    else (.halted, [.out (unrecoverable_error_msg "Could not disable Ctrl-Alt-Delete")])
  | .cadDone =>
    if env.maskOk then (.maskDone, [])
    else (.halted, [.out (unrecoverable_error_msg "Could not disable signals")])
  | .maskDone => (.bannerDone, [.out env.bannerLogo, .out ("\tv" ++ env.version)])
  | .bannerDone => (.pathSet, [.setEnvVar "PATH" DEFAULT_PATH])
  | .pathSet => (.loopTop 0, [])
  | .loopTop n =>
    if env.spawnShellOk n then (.shellWait n, [.spawnProc "/ibish" []])
    else (.panicked, [.panicOut])
  | .shellWait n =>
    match env.waitRes n with
    | some s => (.shutdownAt n, [.waitChild s])
    | none => (.panicked, [.panicOut])
  | .shutdownAt n =>
    if env.rebootOk n then
      (.poweredOff, on_shutdown_request_events (env.killOk n) true)
    else
      (.halted, on_shutdown_request_events (env.killOk n) false)
  | .exited c => (.exited c, [])
  | .halted => (.halted, [])
  | .poweredOff => (.poweredOff, [])
  | .panicked => (.panicked, [])

/-- `k` steps of init from process start, with the event trace. -/
def initRun (env : InitEnv) : Nat → InitState × List Ev
  | 0 => (.start, [])
  | k + 1 =>
    let p := initRun env k
    let q := initStep env p.1
    (q.1, p.2 ++ q.2)

theorem initRun_succ (env : InitEnv) (k : Nat) :
    initRun env (k + 1) =
      ((initStep env (initRun env k).1).1,
        (initRun env k).2 ++ (initStep env (initRun env k).1).2) := rfl

/-- States from which the program makes no further progress and emits no
further events. -/
def isTerminalInit : InitState → Bool
  | .exited _ => true
  | .halted => true
  | .poweredOff => true
  | .panicked => true
  | _ => false

theorem initStep_terminal (env : InitEnv) (s : InitState)
    (h : isTerminalInit s = true) : initStep env s = (s, []) := by
  cases s <;> simp [isTerminalInit] at h <;> rfl

theorem initRun_absorb (env : InitEnv) (k j : Nat) (hkj : k ≤ j)
    (h : isTerminalInit (initRun env k).1 = true) :
    initRun env j = initRun env k := by
  induction j, hkj using Nat.le_induction with
  | base => rfl
  | succ j hkj ih =>
    rw [initRun_succ, ih, initStep_terminal env _ h, List.append_nil]

/-- An uneventful boot: PID 1, every call succeeds, the shell exits with 0,
the kernel honors the power-off. -/
def goodEnv : InitEnv :=
  { pid := 1, bannerLogo := "IBIS", version := "0.1.0", cadOk := true,
    maskOk := true, spawnShellOk := fun _ => true, waitRes := fun _ => some 0,
    killOk := fun _ => true, rebootOk := fun _ => true }

/-- Started under PID 2 instead of PID 1. -/
def badPidEnv : InitEnv :=
  { pid := 2, bannerLogo := "IBIS", version := "0.1.0", cadOk := true,
    maskOk := true, spawnShellOk := fun _ => true, waitRes := fun _ => some 0,
    killOk := fun _ => true, rebootOk := fun _ => true }

/-- PID 1 and a clean boot, but `/ibish` cannot be spawned. -/
def shellSpawnFailEnv : InitEnv :=
  { pid := 1, bannerLogo := "IBIS", version := "0.1.0", cadOk := true,
    maskOk := true, spawnShellOk := fun _ => false, waitRes := fun _ => some 0,
    killOk := fun _ => true, rebootOk := fun _ => true }

/-- A clean boot and shell session, but the kernel refuses the power-off. -/
def rebootFailEnv : InitEnv :=
  { pid := 1, bannerLogo := "IBIS", version := "0.1.0", cadOk := true,
    maskOk := true, spawnShellOk := fun _ => true, waitRes := fun _ => some 0,
    killOk := fun _ => true, rebootOk := fun _ => false }

/-- Shell oracle: every line is `nosuchcmd` and no command name resolves. -/
def badCmdEnv : ShellEnv :=
  { input := fun _ => some "nosuchcmd", resolves := fun _ => false,
    childStatus := fun _ => 0 }

/-- Shell oracle: the input stream is at end-of-input from the start. -/
def eofEnv : ShellEnv :=
  { input := fun _ => none, resolves := fun _ => true,
    childStatus := fun _ => 0 }

/-- Shell oracle: the user types `echo hi`, it resolves, the child exits 7. -/
def echoEnv : ShellEnv :=
  { input := fun _ => some "echo hi", resolves := fun _ => true,
    childStatus := fun _ => 7 }

/-- Shell states from which the program makes no further progress. -/
def isTerminalShell : ShellState → Bool
  | .shExited _ => true
  | .shPanicked => true
  | _ => false

theorem shellStep_terminal (env : ShellEnv) (s : ShellState)
    (h : isTerminalShell s = true) : shellStep env s = (s, []) := by
  cases s <;> simp [isTerminalShell] at h <;> rfl

theorem shellRun_absorb (env : ShellEnv) (k j : Nat) (hkj : k ≤ j)
    (h : isTerminalShell (shellRun env k).1 = true) :
    shellRun env j = shellRun env k := by
  induction j, hkj using Nat.le_induction with
  | base => rfl
  | succ j hkj ih =>
    rw [shellRun_succ, ih, shellStep_terminal env _ h, List.append_nil]

/-- C1: evaluating the shell at the failing input.  On a dispatched line whose
first token names an executable that cannot be spawned, the
`spawn().unwrap()` of ibish panics: the interpreter terminates (state
`shPanicked`, reached after printing only the prompt) and stays terminated;
it does not report the failure and return to the prompt as the spec
requires. -/
theorem shell_spawn_failure_terminates_interpreter :
    shellRun badCmdEnv 1 = (.shPanicked, [.out PROMPT, .panicOut]) ∧
    ∀ k, 1 ≤ k →
      shellRun badCmdEnv k = (.shPanicked, [.out PROMPT, .panicOut]) := by
  refine ⟨by decide, fun k hk => ?_⟩
  rw [shellRun_absorb badCmdEnv 1 k hk (by decide)]
  decide

/-- C3: evaluating init at the failing input.  When spawning `/ibish` fails,
the `spawn().unwrap()` of init `main` panics: the process terminates
abnormally (state `panicked`) and never reaches the `unrecoverable_error`
halt (`halted`) that the spec prescribes for Supervisor-layer spawn
failure. -/
theorem supervisor_spawn_failure_panics_not_halt :
    (initRun shellSpawnFailEnv 7).1 = .panicked ∧
    ∀ k, (initRun shellSpawnFailEnv k).1 ≠ .halted := by
  refine ⟨by decide, fun k => ?_⟩
  rcases Nat.lt_or_ge k 7 with h | h
  · interval_cases k <;> decide
  · rw [initRun_absorb shellSpawnFailEnv 7 k h (by decide)]
    decide

/-- C4: started under any process id other than 1, init prints exactly the
PID diagnostic and exits with status 1, with no banner output (the trace is
exactly that one line, forever).  The converse direction of the claim fails
on the code: under PID 1 a Shell spawn failure terminates the process by
panic (state `panicked`) instead of entering the terminal halt. -/
theorem supervisor_exit_status_policy :
    (∀ (env : InitEnv) (k : Nat), env.pid ≠ 1 → 1 ≤ k →
      initRun env k =
        (.exited 1, [.out "This process must be run as PID 1 (init)"])) ∧
    (shellSpawnFailEnv.pid = 1 ∧ (initRun shellSpawnFailEnv 7).1 = .panicked) := by
  constructor
  · intro env k hpid hk
    have h1 : initRun env 1 =
        (.exited 1, [.out "This process must be run as PID 1 (init)"]) := by
      simp [initRun, initStep, hpid]
    have ht : isTerminalInit (initRun env 1).1 = true := by rw [h1]; rfl
    rw [initRun_absorb env 1 k hk ht, h1]
  · exact ⟨rfl, by decide⟩

theorem supervisor_exit_status_policy_witness :
    initRun badPidEnv 3 =
      (.exited 1, [.out "This process must be run as PID 1 (init)"]) :=
  supervisor_exit_status_policy.1 badPidEnv 3 (by decide) (by decide)

/-- C6: the halt state is absorbing (once `halted` is reached the run never
changes again: no further output, no further spawn, control never returns),
and when the kernel refuses the power-off request the run reaches `halted`
after printing the `unrecoverable_error` diagnostic naming the failure. -/
theorem power_failure_terminal_halt :
    (∀ (env : InitEnv) (k j : Nat), k ≤ j → (initRun env k).1 = .halted →
      initRun env j = initRun env k) ∧
    ((initRun rebootFailEnv 9).1 = .halted ∧
      Ev.out (unrecoverable_error_msg "Could not initiate shutdown") ∈
        (initRun rebootFailEnv 9).2) := by
  refine ⟨fun env k j hkj hh => initRun_absorb env k j hkj (by rw [hh]; rfl),
    by decide, by decide⟩

theorem power_failure_terminal_halt_witness :
    initRun rebootFailEnv 12 = initRun rebootFailEnv 9 :=
  power_failure_terminal_halt.1 rebootFailEnv 9 12 (by decide) (by decide)

/-- C10: at end-of-input every `read_line` leaves the cleared buffer empty,
the token sequence is empty and dispatch is a no-op, so the shell never
terminates: after `k` iterations it is at prompt `k` having printed exactly
`k` prompts, spawned nothing and terminated nothing. -/
theorem eof_loops_forever :
    ∀ env : ShellEnv, (∀ m, env.input m = none) →
      ∀ k, shellRun env k = (.prompt k, List.replicate k (Ev.out PROMPT)) := by
  intro env h k
  induction k with
  | zero => rfl
  | succ k ih =>
    have hd : dispatch (parse_line (readLine env k)) = .noop := by
      rw [readLine, h k]; decide
    rw [shellRun_succ, ih]
    simp [shellStep, hd, List.replicate_succ']

theorem eof_loops_forever_witness :
    shellRun eofEnv 2 = (.prompt 2, List.replicate 2 (Ev.out PROMPT)) :=
  eof_loops_forever eofEnv (fun _ => rfl) 2

/-- Recognizer for process-spawn events. -/
def isSpawnEv : Ev → Bool
  | .spawnProc _ _ => true
  | _ => false

/-- Recognizer for environment-variable writes. -/
def isSetEnvEv : Ev → Bool
  | .setEnvVar _ _ => true
  | _ => false

def isKillEv : Ev → Bool
  | .killAll => true
  | _ => false

def isSyncEv : Ev → Bool
  | .syncFs => true
  | _ => false

def isRebootEv : Ev → Bool
  | .rebootReq => true
  | _ => false

theorem isSpawnEv_out (s : String) : isSpawnEv (.out s) = false := rfl

theorem isSpawnEv_set (a b : String) : isSpawnEv (.setEnvVar a b) = false := rfl

theorem isSpawnEv_spawn (p : String) (a : List String) :
    isSpawnEv (.spawnProc p a) = true := rfl

theorem isSpawnEv_wait (s : Nat) : isSpawnEv (.waitChild s) = false := rfl

theorem isSpawnEv_misc :
    isSpawnEv .killAll = false ∧ isSpawnEv .syncFs = false ∧
    isSpawnEv .rebootReq = false ∧ isSpawnEv .panicOut = false :=
  ⟨rfl, rfl, rfl, rfl⟩

theorem isSetEnvEv_out (s : String) : isSetEnvEv (.out s) = false := rfl

theorem isSetEnvEv_set (a b : String) : isSetEnvEv (.setEnvVar a b) = true := rfl

theorem isSetEnvEv_spawn (p : String) (a : List String) :
    isSetEnvEv (.spawnProc p a) = false := rfl

theorem isSetEnvEv_wait (s : Nat) : isSetEnvEv (.waitChild s) = false := rfl

theorem isSetEnvEv_misc :
    isSetEnvEv .killAll = false ∧ isSetEnvEv .syncFs = false ∧
    isSetEnvEv .rebootReq = false ∧ isSetEnvEv .panicOut = false :=
  ⟨rfl, rfl, rfl, rfl⟩

theorem ite_ff (a b : Nat) : (if false = true then a else b) = b := rfl

theorem ite_tt (a b : Nat) : (if true = true then a else b) = a := rfl

theorem shutdown_events_no_spawn (a b : Bool) :
    (on_shutdown_request_events a b).countP isSpawnEv = 0 := by
  cases a <;> cases b <;> decide

theorem shutdown_events_no_set (a b : Bool) :
    (on_shutdown_request_events a b).countP isSetEnvEv = 0 := by
  cases a <;> cases b <;> decide

theorem shutdown_events_no_setEnvVar (a b : Bool) (nm v : String) :
    Ev.setEnvVar nm v ∉ on_shutdown_request_events a b := by
  cases a <;> cases b <;> simp [on_shutdown_request_events]

/-- The only transition into a `loopTop` state is the boot step out of
`pathSet`, which enters iteration 0. -/
theorem initStep_loopTop (env : InitEnv) (s : InitState) (n : Nat)
    (h : (initStep env s).1 = .loopTop n) : n = 0 := by
  cases s <;> simp only [initStep] at h <;> (try split at h) <;> simp_all

/-- How many shell spawns can have happened by the time a state is reached. -/
def spawnCap : InitState → Nat
  | .start | .pidOk | .cadDone | .maskDone | .bannerDone | .pathSet
  | .loopTop _ | .exited _ => 0
  | _ => 1

theorem initRun_spawn_bound (env : InitEnv) (k : Nat) :
    ((initRun env k).2.countP isSpawnEv) ≤ spawnCap (initRun env k).1 := by
  induction k with
  | zero => simp [initRun, spawnCap]
  | succ k ih =>
    rw [initRun_succ, List.countP_append]
    cases hs : (initRun env k).1 <;> rw [hs] at ih <;>
      simp only [spawnCap] at ih <;>
      simp only [initStep] <;> (try split) <;>
      simp only [spawnCap, List.countP_cons, List.countP_nil, List.countP_append,
        isSpawnEv_out, isSpawnEv_set, isSpawnEv_spawn, isSpawnEv_wait,
        isSpawnEv_misc.1, isSpawnEv_misc.2.1, isSpawnEv_misc.2.2.1,
        isSpawnEv_misc.2.2.2, shutdown_events_no_spawn, ite_ff, ite_tt,
        if_true, if_false] <;>
      omega

/-- C2: shutdown is terminal.  The supervisor loop never reaches a second
iteration (every reachable `loopTop` state is iteration 0), and consequently
no run ever spawns the shell more than once: there is no
respawn-after-shutdown path. -/
theorem shutdown_is_terminal :
    (∀ (env : InitEnv) (k n : Nat), (initRun env k).1 = .loopTop n → n = 0) ∧
    (∀ (env : InitEnv) (k : Nat), ((initRun env k).2.countP isSpawnEv) ≤ 1) := by
  constructor
  · intro env k n h
    cases k with
    | zero => simp [initRun] at h
    | succ k =>
      rw [initRun_succ] at h
      exact initStep_loopTop env _ n h
  · intro env k
    have h1 := initRun_spawn_bound env k
    have h2 : spawnCap (initRun env k).1 ≤ 1 := by
      cases (initRun env k).1 <;> simp [spawnCap]
    omega

theorem shutdown_is_terminal_witness :
    (0 : Nat) = 0 ∧ ((initRun goodEnv 9).2.countP isSpawnEv) ≤ 1 :=
  ⟨shutdown_is_terminal.1 goodEnv 6 0 (by decide),
   shutdown_is_terminal.2 goodEnv 9⟩

/-- C5: in every invocation of the shutdown sequence, whatever the outcomes
of the broadcast and of the power request, the SIGTERM broadcast occurs
exactly once and strictly before the single `sync`, which occurs strictly
before the single power-off request; and the shutdown step of the supervisor
emits exactly this event sequence. -/
theorem shutdown_sequence_ordering :
    (∀ killOk rebootOk : Bool, ∃ i j l : Nat, i < j ∧ j < l ∧
      (on_shutdown_request_events killOk rebootOk)[i]? = some .killAll ∧
      (on_shutdown_request_events killOk rebootOk)[j]? = some .syncFs ∧
      (on_shutdown_request_events killOk rebootOk)[l]? = some .rebootReq ∧
      (on_shutdown_request_events killOk rebootOk).countP isKillEv = 1 ∧
      (on_shutdown_request_events killOk rebootOk).countP isSyncEv = 1 ∧
      (on_shutdown_request_events killOk rebootOk).countP isRebootEv = 1) ∧
    (∀ (env : InitEnv) (n : Nat),
      (initStep env (.shutdownAt n)).2 =
        on_shutdown_request_events (env.killOk n) (env.rebootOk n)) := by
  constructor
  · intro a b
    cases a <;> cases b
    · exact ⟨1, 3, 4, by decide⟩
    · exact ⟨1, 3, 4, by decide⟩
    · exact ⟨1, 2, 3, by decide⟩
    · exact ⟨1, 2, 3, by decide⟩
  · intro env n
    by_cases hr : env.rebootOk n <;> simp [initStep, hr]

theorem shutdown_sequence_ordering_witness :
    (initStep rebootFailEnv (.shutdownAt 0)).2 =
      on_shutdown_request_events true false :=
  shutdown_sequence_ordering.2 rebootFailEnv 0

theorem takeWhile_append_stop {α : Type} {p : α → Bool} {l₁ l₂ : List α}
    (h : ∃ a ∈ l₁, p a = false) :
    (l₁ ++ l₂).takeWhile p = l₁.takeWhile p := by
  rw [List.takeWhile_append, if_neg]
  intro hlen
  have heq : l₁.takeWhile p = l₁ :=
    (List.takeWhile_sublist p).eq_of_length hlen
  rcases h with ⟨a, ha, hpa⟩
  have := List.takeWhile_eq_self_iff.mp heq a ha
  simp [hpa] at this

/-- States of init at which the PATH write has already been executed. -/
def pathWritten : InitState → Bool
  | .pathSet | .loopTop _ | .shellWait _ | .shutdownAt _ | .poweredOff => true
  | _ => false

/-- States of init at which the PATH write has definitely not yet happened. -/
def pathPending : InitState → Bool
  | .start | .pidOk | .cadDone | .maskDone | .bannerDone | .exited _ => true
  | _ => false

/-- No spawn event occurs before the first environment write of the trace
(and, when the trace has no environment write, no spawn event at all). -/
def noSpawnBeforeSet (tr : List Ev) : Prop :=
  ((tr.takeWhile fun e => !isSetEnvEv e).countP isSpawnEv) = 0

/-- Inductive invariant for C9: the trace holds at most one environment
write (exactly one as soon as the PATH write has executed, none before),
every spawn is preceded by it, and the only write ever issued is
`PATH=/sbin;/bin`. -/
def pathInv (s : InitState) (tr : List Ev) : Prop :=
  tr.countP isSetEnvEv ≤ 1 ∧
  (pathPending s = true → tr.countP isSetEnvEv = 0) ∧
  (pathWritten s = true → tr.countP isSetEnvEv = 1) ∧
  noSpawnBeforeSet tr ∧
  ∀ nm v, Ev.setEnvVar nm v ∈ tr → nm = "PATH" ∧ v = DEFAULT_PATH

theorem noSpawnBeforeSet_append_of_set (tr es : List Ev)
    (h1 : 0 < tr.countP isSetEnvEv) (h4 : noSpawnBeforeSet tr) :
    noSpawnBeforeSet (tr ++ es) := by
  unfold noSpawnBeforeSet at h4 ⊢
  have hex : ∃ a ∈ tr, (fun e => !isSetEnvEv e) a = false := by
    rcases List.countP_pos_iff.mp h1 with ⟨a, ha, hpa⟩
    exact ⟨a, ha, by simp [hpa]⟩
  rw [takeWhile_append_stop hex]
  exact h4

theorem noSpawnBeforeSet_append_of_none (tr es : List Ev)
    (h0 : tr.countP isSetEnvEv = 0) (h4 : noSpawnBeforeSet tr)
    (hes : es.countP isSpawnEv = 0) :
    noSpawnBeforeSet (tr ++ es) := by
  unfold noSpawnBeforeSet at h4 ⊢
  have hall : ∀ a ∈ tr, (fun e => !isSetEnvEv e) a = true := by
    intro a ha
    have := List.countP_eq_zero.mp h0 a ha
    simp_all
  rw [List.takeWhile_append_of_pos hall, List.countP_append]
  have htr : tr.takeWhile (fun e => !isSetEnvEv e) = tr :=
    List.takeWhile_eq_self_iff.mpr hall
  rw [htr] at h4
  have hsub : ((es.takeWhile fun e => !isSetEnvEv e).countP isSpawnEv) ≤
      es.countP isSpawnEv :=
    (List.takeWhile_sublist _).countP_le _
  omega

/-- Extending a trace by events that write no environment variable preserves
the invariant, provided either the PATH write already happened or the new
events spawn nothing. -/
theorem pathInv_extend {s s' : InitState} (tr es : List Ev)
    (h : pathInv s tr)
    (hset : es.countP isSetEnvEv = 0)
    (hspawn0 : pathWritten s = true ∨ es.countP isSpawnEv = 0)
    (hpend : pathPending s' = true → pathPending s = true)
    (hwrit : pathWritten s' = true → pathWritten s = true)
    (hvals : ∀ nm v, Ev.setEnvVar nm v ∈ es → nm = "PATH" ∧ v = DEFAULT_PATH) :
    pathInv s' (tr ++ es) := by
  obtain ⟨h1, h2, h3, h4, h5⟩ := h
  refine ⟨?_, ?_, ?_, ?_, ?_⟩
  · rw [List.countP_append, hset]; omega
  · intro hp; rw [List.countP_append, hset]
    have := h2 (hpend hp); omega
  · intro hw; rw [List.countP_append, hset]
    have := h3 (hwrit hw); omega
  · rcases hspawn0 with hw | hs0
    · exact noSpawnBeforeSet_append_of_set tr es (by have := h3 hw; omega) h4
    · by_cases h0 : tr.countP isSetEnvEv = 0
      · exact noSpawnBeforeSet_append_of_none tr es h0 h4 hs0
      · exact noSpawnBeforeSet_append_of_set tr es (by omega) h4
  · intro nm v hmem
    rcases List.mem_append.mp hmem with hm | hm
    · exact h5 nm v hm
    · exact hvals nm v hm

theorem initStep_pathInv (env : InitEnv) (s : InitState) (tr : List Ev)
    (h : pathInv s tr) :
    pathInv (initStep env s).1 (tr ++ (initStep env s).2) := by
  cases s
  case start =>
    by_cases hp : env.pid = 1 <;> simp only [initStep, hp, if_true, if_false]
    · exact pathInv_extend tr [] h rfl (Or.inr rfl) (fun _ => rfl)
        (by intro hw; simp [pathWritten] at hw) (by intro nm v hm; simp at hm)
    · exact pathInv_extend tr _ h rfl (Or.inr rfl) (fun _ => rfl)
        (by intro hw; simp [pathWritten] at hw) (by intro nm v hm; simp at hm)
  case pidOk =>
    by_cases hc : env.cadOk <;> simp only [initStep, hc, if_true, if_false]
    · exact pathInv_extend tr [] h rfl (Or.inr rfl) (fun _ => rfl)
        (by intro hw; simp [pathWritten] at hw) (by intro nm v hm; simp at hm)
    · exact pathInv_extend tr _ h rfl (Or.inr rfl)
        (by intro hp; simp [pathPending] at hp)
        (by intro hw; simp [pathWritten] at hw) (by intro nm v hm; simp at hm)
  case cadDone =>
    by_cases hm : env.maskOk <;> simp only [initStep, hm, if_true, if_false]
    · exact pathInv_extend tr [] h rfl (Or.inr rfl) (fun _ => rfl)
        (by intro hw; simp [pathWritten] at hw) (by intro nm v hm; simp at hm)
    · exact pathInv_extend tr _ h rfl (Or.inr rfl)
        (by intro hp; simp [pathPending] at hp)
        (by intro hw; simp [pathWritten] at hw) (by intro nm v hm; simp at hm)
  case maskDone =>
    simp only [initStep]
    exact pathInv_extend tr _ h rfl (Or.inr rfl) (fun _ => rfl)
      (by intro hw; simp [pathWritten] at hw) (by intro nm v hm; simp at hm)
  case bannerDone =>
    obtain ⟨h1, h2, h3, h4, h5⟩ := h
    have h0 : tr.countP isSetEnvEv = 0 := h2 rfl
    simp only [initStep]
    refine ⟨?_, ?_, ?_, ?_, ?_⟩
    · rw [List.countP_append, h0]
      simp [List.countP_cons, isSetEnvEv_set]
    · intro hp; simp [pathPending] at hp
    · intro _
      rw [List.countP_append, h0]
      simp [List.countP_cons, isSetEnvEv_set]
    · exact noSpawnBeforeSet_append_of_none tr _ h0 h4 rfl
    · intro nm v hmem
      rcases List.mem_append.mp hmem with hm | hm
      · exact h5 nm v hm
      · simp at hm
        exact ⟨hm.1, hm.2⟩
  case pathSet =>
    simp only [initStep]
    exact pathInv_extend tr [] h rfl (Or.inr rfl)
      (by intro hp; simp [pathPending] at hp) (fun _ => rfl)
      (by intro nm v hm; simp at hm)
  case loopTop n =>
    by_cases hsp : env.spawnShellOk n <;>
      simp only [initStep, hsp, if_true, if_false]
    · exact pathInv_extend tr _ h rfl (Or.inl rfl) (fun hp => hp) (fun _ => rfl)
        (by intro nm v hm; simp at hm)
    · exact pathInv_extend tr _ h rfl (Or.inl rfl)
        (by intro hp; simp [pathPending] at hp)
        (by intro hw; simp [pathWritten] at hw) (by intro nm v hm; simp at hm)
  case shellWait n =>
    cases hw : env.waitRes n <;> simp only [initStep, hw]
    · exact pathInv_extend tr _ h rfl (Or.inl rfl)
        (by intro hp; simp [pathPending] at hp)
        (by intro hww; simp [pathWritten] at hww) (by intro nm v hm; simp at hm)
    · exact pathInv_extend tr _ h rfl (Or.inl rfl)
        (by intro hp; simp [pathPending] at hp) (fun _ => rfl)
        (by intro nm v hm; simp at hm)
  case shutdownAt n =>
    by_cases hr : env.rebootOk n <;> simp only [initStep, hr, if_true, if_false]
    · exact pathInv_extend tr _ h (shutdown_events_no_set _ _) (Or.inl rfl)
        (by intro hp; simp [pathPending] at hp) (fun _ => rfl)
        (fun nm v hm => absurd hm (shutdown_events_no_setEnvVar _ _ nm v))
    · exact pathInv_extend tr _ h (shutdown_events_no_set _ _) (Or.inl rfl)
        (by intro hp; simp [pathPending] at hp)
        (by intro hww; simp [pathWritten] at hww)
        (fun nm v hm => absurd hm (shutdown_events_no_setEnvVar _ _ nm v))
  case exited c =>
    simp only [initStep]
    exact pathInv_extend tr [] h rfl (Or.inr rfl) (fun hp => hp)
      (by intro hw; simp [pathWritten] at hw) (by intro nm v hm; simp at hm)
  case halted =>
    simp only [initStep]
    exact pathInv_extend tr [] h rfl (Or.inr rfl)
      (by intro hp; simp [pathPending] at hp)
      (by intro hw; simp [pathWritten] at hw) (by intro nm v hm; simp at hm)
  case poweredOff =>
    simp only [initStep]
    exact pathInv_extend tr [] h rfl (Or.inr rfl)
      (by intro hp; simp [pathPending] at hp) (fun hw => hw)
      (by intro nm v hm; simp at hm)
  case panicked =>
    simp only [initStep]
    exact pathInv_extend tr [] h rfl (Or.inr rfl)
      (by intro hp; simp [pathPending] at hp)
      (by intro hw; simp [pathWritten] at hw) (by intro nm v hm; simp at hm)

theorem initRun_pathInv (env : InitEnv) (k : Nat) :
    pathInv (initRun env k).1 (initRun env k).2 := by
  induction k with
  | zero =>
    refine ⟨by simp [initRun], fun _ => rfl, ?_, by simp [noSpawnBeforeSet, initRun], ?_⟩
    · intro hw; simp [pathWritten, initRun] at hw
    · intro nm v hm; simp [initRun] at hm
  | succ k ih =>
    rw [initRun_succ]
    exact initStep_pathInv env _ _ ih

theorem shellStep_no_setEnv (env : ShellEnv) (s : ShellState) :
    ((shellStep env s).2.countP isSetEnvEv) = 0 := by
  cases s
  case prompt n =>
    cases hd : dispatch (parse_line (readLine env n)) with
    | noop => simp [shellStep, hd, List.countP_cons, isSetEnvEv_out]
    | exitWithCode c => simp [shellStep, hd, List.countP_cons, isSetEnvEv_out]
    | runCmd cmd args =>
      by_cases hr : env.resolves cmd <;>
        simp [shellStep, hd, hr, List.countP_cons, isSetEnvEv_out,
          isSetEnvEv_spawn, isSetEnvEv_wait, isSetEnvEv_misc.2.2.2]
  case shExited c => rfl
  case shPanicked => rfl

theorem shellRun_no_setEnv (env : ShellEnv) (k : Nat) :
    ((shellRun env k).2.countP isSetEnvEv) = 0 := by
  induction k with
  | zero => rfl
  | succ k ih =>
    rw [shellRun_succ, List.countP_append, ih, shellStep_no_setEnv]

/-- C9: in every init run the search-path environment value is written at
most once, exactly once as soon as the boot's PATH step has executed, the
only write ever issued is `PATH=/sbin;/bin`, no process spawn precedes the
write, and the shell never writes any environment variable at all. -/
theorem search_path_written_once :
    (∀ (env : InitEnv) (k : Nat), ((initRun env k).2.countP isSetEnvEv) ≤ 1) ∧
    (∀ (env : InitEnv) (k : Nat), noSpawnBeforeSet (initRun env k).2) ∧
    (∀ (env : InitEnv) (k : Nat) (nm v : String),
      Ev.setEnvVar nm v ∈ (initRun env k).2 → nm = "PATH" ∧ v = DEFAULT_PATH) ∧
    (∀ (env : InitEnv) (k : Nat), pathWritten (initRun env k).1 = true →
      ((initRun env k).2.countP isSetEnvEv) = 1) ∧
    (∀ (senv : ShellEnv) (k : Nat), ((shellRun senv k).2.countP isSetEnvEv) = 0) :=
  ⟨fun env k => (initRun_pathInv env k).1,
   fun env k => (initRun_pathInv env k).2.2.2.1,
   fun env k nm v hm => (initRun_pathInv env k).2.2.2.2 nm v hm,
   fun env k hw => (initRun_pathInv env k).2.2.1 hw,
   fun senv k => shellRun_no_setEnv senv k⟩

theorem search_path_written_once_witness :
    ((initRun goodEnv 6).2.countP isSetEnvEv) = 1 :=
  search_path_written_once.2.2.2.1 goodEnv 6 (by decide)

/-- Every word the splitter produces is non-empty and free of ASCII
whitespace, provided the running accumulator is. -/
theorem split_aux_sound (cs : List Char) :
    ∀ acc, (∀ c ∈ acc, isAsciiWhitespace c = false) →
      ∀ w ∈ split_ascii_whitespace_aux cs acc,
        w ≠ [] ∧ ∀ c ∈ w, isAsciiWhitespace c = false := by
  induction cs with
  | nil =>
    intro acc hacc w hw
    by_cases h : acc = []
    · simp [split_ascii_whitespace_aux, h] at hw
    · simp only [split_ascii_whitespace_aux, if_neg h, List.mem_singleton] at hw
      subst hw
      refine ⟨by simpa using h, ?_⟩
      intro c hc
      exact hacc c (List.mem_reverse.mp hc)
  | cons c cs ih =>
    intro acc hacc w hw
    simp only [split_ascii_whitespace_aux] at hw
    by_cases hws : isAsciiWhitespace c = true
    · rw [if_pos hws] at hw
      by_cases h : acc = []
      · rw [if_pos h] at hw
        exact ih [] (by simp) w hw
      · rw [if_neg h] at hw
        rcases List.mem_cons.mp hw with rfl | hw'
        · refine ⟨by simpa using h, ?_⟩
          intro x hx
          exact hacc x (List.mem_reverse.mp hx)
        · exact ih [] (by simp) w hw'
    · rw [if_neg hws] at hw
      refine ih (c :: acc) ?_ w hw
      intro x hx
      rcases List.mem_cons.mp hx with rfl | hx'
      · simpa using hws
      · exact hacc x hx'

/-- Tokens of `parse_line` are non-empty and contain no whitespace. -/
theorem parse_line_tokens (line w : String) (hw : w ∈ parse_line line) :
    w ≠ "" ∧ ∀ c ∈ w.data, isAsciiWhitespace c = false := by
  rcases List.mem_map.mp hw with ⟨l, hl, rfl⟩
  have hs := split_aux_sound line.data [] (by simp) l hl
  refine ⟨?_, hs.2⟩
  intro hnil
  have : l = [] := by simpa using congrArg String.data hnil
  exact hs.1 this

/-- C7: the tokenizer splits on runs of whitespace and nothing else:
`"ls -la"` gives `["ls", "-la"]`, the empty and all-blank lines give `[]`
(and the shell then spawns nothing, emitting only the prompt), a line whose
first token is `exit` dispatches to exit whatever follows, and every token
produced is non-empty and whitespace-free. -/
theorem tokenizer_whitespace_split :
    parse_line "ls -la" = ["ls", "-la"] ∧
    parse_line "" = [] ∧
    parse_line "   " = [] ∧
    dispatch (parse_line "") = .noop ∧
    dispatch (parse_line "   ") = .noop ∧
    dispatch (parse_line "exit now please") = .exitWithCode 0 ∧
    (∀ line w : String, w ∈ parse_line line →
      w ≠ "" ∧ ∀ c ∈ w.data, isAsciiWhitespace c = false) ∧
    (∀ (env : ShellEnv) (n : Nat), parse_line (readLine env n) = [] →
      shellStep env (.prompt n) = (.prompt (n + 1), [.out PROMPT])) := by
  refine ⟨by decide, by decide, by decide, by decide, by decide, by decide,
    fun line w hw => parse_line_tokens line w hw, ?_⟩
  intro env n h
  simp [shellStep, h, dispatch]

theorem tokenizer_whitespace_split_witness :
    shellStep eofEnv (.prompt 0) = (.prompt 1, [.out PROMPT]) :=
  tokenizer_whitespace_split.2.2.2.2.2.2.2 eofEnv 0 (by decide)

/-- Only exit status 0 is ever produced by dispatch. -/
theorem dispatch_exit_zero (toks : List String) (c : Nat)
    (h : dispatch toks = .exitWithCode c) : c = 0 := by
  cases toks with
  | nil => simp [dispatch] at h
  | cons a l =>
    simp only [dispatch] at h
    split at h <;> simp_all

theorem shellStep_exit_zero (env : ShellEnv) (s : ShellState) (c : Nat)
    (hinv : ∀ d, s = .shExited d → d = 0)
    (h : (shellStep env s).1 = .shExited c) : c = 0 := by
  cases s
  case prompt n =>
    cases hd : dispatch (parse_line (readLine env n)) with
    | noop => simp [shellStep, hd] at h
    | exitWithCode d =>
      simp only [shellStep, hd] at h
      have hd0 := dispatch_exit_zero _ _ hd
      cases h
      exact hd0
    | runCmd cmd args =>
      by_cases hr : env.resolves cmd <;> simp [shellStep, hd, hr] at h
  case shExited d =>
    simp only [shellStep] at h
    cases h
    exact hinv _ rfl
  case shPanicked => simp [shellStep] at h

theorem shellRun_exit_zero (env : ShellEnv) :
    ∀ k c, (shellRun env k).1 = .shExited c → c = 0 := by
  intro k
  induction k with
  | zero => intro c h; simp [shellRun] at h
  | succ k ih =>
    intro c h
    rw [shellRun_succ] at h
    exact shellStep_exit_zero env _ c ih h

/-- C8: dispatch is exactly the case analysis of the spec: empty line is a
no-op back to the prompt; a line headed by `exit` terminates the interpreter
with status 0 whatever follows; any other line spawns its first token on the
remaining tokens, waits for the child, and returns to the prompt with the
child's status recorded only in the trace — the interpreter's own exit code
is 0 in every terminating run, never the child's status. -/
theorem dispatch_case_analysis :
    dispatch [] = .noop ∧
    (∀ rest : List String, dispatch ("exit" :: rest) = .exitWithCode 0) ∧
    (∀ (cmd : String) (args : List String), cmd ≠ "exit" →
      dispatch (cmd :: args) = .runCmd cmd args) ∧
    (∀ (env : ShellEnv) (n : Nat), parse_line (readLine env n) = [] →
      shellStep env (.prompt n) = (.prompt (n + 1), [.out PROMPT])) ∧
    (∀ (env : ShellEnv) (n : Nat) (rest : List String),
      parse_line (readLine env n) = "exit" :: rest →
      shellStep env (.prompt n) = (.shExited 0, [.out PROMPT])) ∧
    (∀ (env : ShellEnv) (n : Nat) (cmd : String) (args : List String),
      parse_line (readLine env n) = cmd :: args → cmd ≠ "exit" →
      env.resolves cmd = true →
      shellStep env (.prompt n) =
        (.prompt (n + 1),
          [.out PROMPT, .spawnProc cmd args, .waitChild (env.childStatus n)])) ∧
    (∀ (env : ShellEnv) (k c : Nat), (shellRun env k).1 = .shExited c → c = 0) := by
  refine ⟨rfl, fun rest => by simp [dispatch], fun cmd args hne => by simp [dispatch, hne],
    ?_, ?_, ?_, fun env k c h => shellRun_exit_zero env k c h⟩
  · intro env n h
    simp [shellStep, h, dispatch]
  · intro env n rest h
    simp [shellStep, h, dispatch]
  · intro env n cmd args h hne hres
    simp [shellStep, h, dispatch, hne, hres]

theorem dispatch_case_analysis_witness :
    shellStep echoEnv (.prompt 0) =
      (.prompt 1, [.out PROMPT, .spawnProc "echo" ["hi"], .waitChild 7]) :=
  dispatch_case_analysis.2.2.2.2.2.1 echoEnv 0 "echo" ["hi"] (by decide)
    (by decide) rfl

end Ibis
